import Mathlib

/-!
Shallow embedding of the chippy CHIP-8 virtual machine core
(internal/chip8: the `VM` struct, its opcode handler methods, `loadROM`,
`emulateCycle`/`parseOpcode`, `drawSprite`, and `soundTimerTick`).

Conventions of the embedding:
* Go byte values are `Nat` kept below 256 by explicit `% 256` exactly where
  Go's 8-bit arithmetic wraps; Go `uint16` values are `Nat` with `% 65536`.
* The fixed-size Go arrays (`memory [4096]byte`, `v [16]byte`,
  `stack [16]uint16`, `gfx [64*32]byte`, `keypad [16]byte`) are total
  functions `Nat → Nat`; an out-of-range index of such an array makes the
  Go runtime panic, so every handler that can index out of range is
  embedded as an `Option VM` returning `none` exactly when Go would panic.
* `rand.Float32()*255` in the `CXNN` handler is modelled by an explicit
  random-byte parameter `r`.
-/

namespace Chippy

/-- Pointwise update of a function modelling a mutable Go array/register file. -/
def upd (f : Nat → Nat) (k a : Nat) : Nat → Nat :=
  fun j => if j = k then a else f j

/-- The chip-8 virtual machine state, mirroring the fields of the Go `VM`
struct that the instruction interpreter touches (the window, clock and
channel fields carry no interpreter state and are omitted; the audio
channel send is modelled as the signal count returned by
`soundTimerTick`). -/
structure VM where
  memory : Nat → Nat
  opcode : Nat
  v : Nat → Nat
  i : Nat
  pc : Nat
  stack : Nat → Nat
  sp : Nat
  gfx : Nat → Nat
  delayTimer : Nat
  soundTimer : Nat
  keypad : Nat → Nat
  drawFlag : Bool

/-- A zeroed VM with `pc = 0x200`, as `NewVM` initializes it (font data and
ROM bytes are irrelevant here and left zero). Used as a base state for
concrete evaluations. -/
def vm0 : VM :=
  { memory := fun _ => 0
    opcode := 0
    v := fun _ => 0
    i := 0
    pc := 512
    stack := fun _ => 0
    sp := 0
    gfx := fun _ => 0
    delayTimer := 0
    soundTimer := 0
    keypad := fun _ => 0
    drawFlag := false }

/-- `00E0`: clear the screen (`vm.gfx = [64*32]byte{}; vm.pc += 2`). -/
def VM._0x00E0 (vm : VM) : VM :=
  { vm with gfx := fun _ => 0, pc := (vm.pc + 2) % 65536 }

/-- `00EE`: return (`vm.pc = vm.stack[vm.sp] + 2; vm.sp--`). Reading
`stack[sp]` with `sp ≥ 16` is a Go out-of-range panic, hence `none`;
`sp--` is uint16 decrement, which wraps at 0. -/
def VM._0x00EE (vm : VM) : Option VM :=
  if 16 ≤ vm.sp then none
  else some { vm with pc := (vm.stack vm.sp + 2) % 65536
                      sp := (vm.sp + 65535) % 65536 }

/-- `1NNN`: jump (`vm.pc = nnn`). -/
def VM._0x1000 (vm : VM) (nnn : Nat) : VM :=
  { vm with pc := nnn }

/-- `2NNN`: call (`vm.sp++; vm.stack[vm.sp] = vm.pc; vm.pc = nnn`).
Writing `stack[sp+1]` with `sp+1 ≥ 16` (after uint16 wrap) is a Go
out-of-range panic, hence `none`. -/
def VM._0x2000 (vm : VM) (nnn : Nat) : Option VM :=
  let sp1 := (vm.sp + 1) % 65536
  if 16 ≤ sp1 then none
  else some { vm with sp := sp1, stack := upd vm.stack sp1 vm.pc, pc := nnn }

/-- `3XNN`: skip next instruction if `VX == NN`. -/
def VM._0x3000 (vm : VM) (x nn : Nat) : VM :=
  if vm.v x = nn then { vm with pc := (vm.pc + 4) % 65536 }
  else { vm with pc := (vm.pc + 2) % 65536 }

/-- `4XNN`: skip next instruction if `VX != NN`. -/
def VM._0x4000 (vm : VM) (x nn : Nat) : VM :=
  if vm.v x ≠ nn then { vm with pc := (vm.pc + 4) % 65536 }
  else { vm with pc := (vm.pc + 2) % 65536 }

/-- `5XY0`: skip next instruction if `VX == VY`. -/
def VM._0x5000 (vm : VM) (x y : Nat) : VM :=
  if vm.v x = vm.v y then { vm with pc := (vm.pc + 4) % 65536 }
  else { vm with pc := (vm.pc + 2) % 65536 }

/-- `6XNN`: `vm.v[x] = nn`. -/
def VM._0x6000 (vm : VM) (x nn : Nat) : VM :=
  { vm with v := upd vm.v x nn, pc := (vm.pc + 2) % 65536 }

/-- `7XNN`: `vm.v[x] += nn` (byte addition wraps mod 256). -/
def VM._0x7000 (vm : VM) (x nn : Nat) : VM :=
  { vm with v := upd vm.v x ((vm.v x + nn) % 256), pc := (vm.pc + 2) % 65536 }

/-- `8XY0`: `vm.v[x] = vm.v[y]`. -/
def VM._0x0000 (vm : VM) (x y : Nat) : VM :=
  { vm with v := upd vm.v x (vm.v y), pc := (vm.pc + 2) % 65536 }

/-- `8XY1`: `vm.v[x] |= vm.v[y]`. -/
def VM._0x0001 (vm : VM) (x y : Nat) : VM :=
  { vm with v := upd vm.v x (Nat.lor (vm.v x) (vm.v y)), pc := (vm.pc + 2) % 65536 }

/-- `8XY2`: `vm.v[x] &= vm.v[y]`. -/
def VM._0x0002 (vm : VM) (x y : Nat) : VM :=
  { vm with v := upd vm.v x (Nat.land (vm.v x) (vm.v y)), pc := (vm.pc + 2) % 65536 }

/-- `8XY3`: `vm.v[x] ^= vm.v[y]`. -/
def VM._0x0003 (vm : VM) (x y : Nat) : VM :=
  { vm with v := upd vm.v x (Nat.xor (vm.v x) (vm.v y)), pc := (vm.pc + 2) % 65536 }

/-- `8XY4`: set `VF` to 1 if `vm.v[y] > 0xFF - vm.v[x]` else 0, then
`vm.v[x] += vm.v[y]` (the addition reads the register file after the `VF`
write, exactly as the two Go statements execute in order). -/
def VM._0x0004 (vm : VM) (x y : Nat) : VM :=
  let v1 := upd vm.v 15 (if 255 - vm.v x < vm.v y then 1 else 0)
  { vm with v := upd v1 x ((v1 x + v1 y) % 256), pc := (vm.pc + 2) % 65536 }

/-- `8XY5`: set `VF` to 0 if `vm.v[y] > vm.v[x]` (borrow) else 1, then
`vm.v[x] -= vm.v[y]` (byte subtraction wraps mod 256). -/
def VM._0x0005 (vm : VM) (x y : Nat) : VM :=
  let v1 := upd vm.v 15 (if vm.v x < vm.v y then 0 else 1)
  { vm with v := upd v1 x ((v1 x + 256 - v1 y % 256) % 256), pc := (vm.pc + 2) % 65536 }

/-- `8XY6`: `vm.v[x] = vm.v[y] >> 1; vm.v[0xF] = vm.v[y] & 0x01` — the
second statement reads the register file after the first assignment. -/
def VM._0x0006 (vm : VM) (x y : Nat) : VM :=
  let v1 := upd vm.v x (vm.v y / 2)
  { vm with v := upd v1 15 (Nat.land (v1 y) 1), pc := (vm.pc + 2) % 65536 }

/-- `8XY7`: set `VF` to 0 if `vm.v[x] > vm.v[y]` (borrow) else 1, then
`vm.v[x] = vm.v[y] - vm.v[x]` (byte subtraction wraps mod 256). -/
def VM._0x0007_1 (vm : VM) (x y : Nat) : VM :=
  let v1 := upd vm.v 15 (if vm.v y < vm.v x then 0 else 1)
  { vm with v := upd v1 x ((v1 y + 256 - v1 x % 256) % 256), pc := (vm.pc + 2) % 65536 }

/-- `8XYE`: `vm.v[x] = vm.v[y] << 1; vm.v[0xF] = vm.v[y] & 0x80` — the
second statement reads the register file after the first assignment. -/
def VM._0x000E (vm : VM) (x y : Nat) : VM :=
  let v1 := upd vm.v x ((vm.v y * 2) % 256)
  { vm with v := upd v1 15 (Nat.land (v1 y) 128), pc := (vm.pc + 2) % 65536 }

/-- `9XY0`: skip next instruction if `VX != VY`. -/
def VM._0x9000 (vm : VM) (x y : Nat) : VM :=
  if vm.v x ≠ vm.v y then { vm with pc := (vm.pc + 4) % 65536 }
  else { vm with pc := (vm.pc + 2) % 65536 }

/-- `ANNN`: `vm.i = nnn`. -/
def VM._0xA000 (vm : VM) (nnn : Nat) : VM :=
  { vm with i := nnn, pc := (vm.pc + 2) % 65536 }

/-- `BNNN`: `vm.pc = nnn + uint16(vm.v[0]); vm.pc += 2`. -/
def VM._0xB000 (vm : VM) (nnn : Nat) : VM :=
  { vm with pc := ((nnn + vm.v 0) % 65536 + 2) % 65536 }

/-- `CXNN`: `vm.v[x] = byte(rand.Float32()*255) & nn`; the random byte is
the explicit parameter `r`. -/
def VM._0xC000 (vm : VM) (x nn r : Nat) : VM :=
  { vm with v := upd vm.v x (Nat.land r nn), pc := (vm.pc + 2) % 65536 }

/-- `DXYN` inner pixel step for one `xLine` of one sprite row:
`ind := x + xLine + (y + yLine)*64` (uint16 arithmetic); if `ind` is not
smaller than the 2048-cell `gfx` array the pixel is skipped (`continue`);
otherwise, when sprite bit `0x80 >> xLine` is set, `VF` is set to 1 if the
cell was already 1, and the cell is XORed with 1. The state is the pair
(gfx, VF accumulator). -/
def spriteRowStep (x ytot pix : Nat) (st : (Nat → Nat) × Nat) (xLine : Nat) :
    (Nat → Nat) × Nat :=
  let ind := (x + xLine + ytot * 64) % 65536
  if 2048 ≤ ind then st
  else if Nat.land pix (Nat.shiftRight 128 xLine) ≠ 0 then
    (upd st.1 ind (Nat.xor (st.1 ind) 1), if st.1 ind = 1 then 1 else st.2)
  else st

/-- One sprite row of `DXYN`: the inner `xLine = 0..7` loop. -/
def drawRow (x ytot pix : Nat) (st : (Nat → Nat) × Nat) : (Nat → Nat) × Nat :=
  (List.range 8).foldl (spriteRowStep x ytot pix) st

/-- The outer `yLine` loop of `drawSprite`: `rem` rows remain, the current
row index is `yLine`; each row reads `pix = memory[i + yLine]` (uint16
index; out of the 4096-byte array it is a Go panic, hence `none`). -/
def drawRows (mem : Nat → Nat) (i x y : Nat) :
    Nat → Nat → ((Nat → Nat) × Nat) → Option ((Nat → Nat) × Nat)
  | _, 0, st => some st
  | yLine, rem + 1, st =>
    let addr := (i + yLine) % 65536
    if 4096 ≤ addr then none
    else drawRows mem i x y (yLine + 1) rem (drawRow x (y + yLine) (mem addr) st)

/-- `drawSprite(x, y)`: height is the low nibble of the current opcode,
`VF` starts at 0, `height` rows are XORed onto `gfx`, and `drawFlag` is set. -/
def VM.drawSprite (vm : VM) (x y : Nat) : Option VM :=
  match drawRows vm.memory vm.i x y 0 (Nat.land vm.opcode 15) (vm.gfx, 0) with
  | none => none
  | some st =>
    some { vm with gfx := st.1, v := upd vm.v 15 st.2, drawFlag := true }

/-- `DXYN`: `x := v[x]; y := v[y]; drawSprite(x, y); pc += 2`. -/
def VM._0xD000 (vm : VM) (x y : Nat) : Option VM :=
  match vm.drawSprite (vm.v x) (vm.v y) with
  | none => none
  | some vm1 => some { vm1 with pc := (vm1.pc + 2) % 65536 }

/-- `EX9E`: skip if `keypad[v[x]]` is pressed (and clear that key);
indexing `keypad` with `v[x] ≥ 16` is a Go panic, hence `none`. -/
def VM._0x009E (vm : VM) (x : Nat) : Option VM :=
  if 16 ≤ vm.v x then none
  else if vm.keypad (vm.v x) = 1 then
    some { vm with pc := (vm.pc + 4) % 65536, keypad := upd vm.keypad (vm.v x) 0 }
  else some { vm with pc := (vm.pc + 2) % 65536 }

/-- `EXA1`: skip if `keypad[v[x]]` is not pressed (otherwise clear the key);
indexing `keypad` with `v[x] ≥ 16` is a Go panic, hence `none`. -/
def VM._0x00A1 (vm : VM) (x : Nat) : Option VM :=
  if 16 ≤ vm.v x then none
  else if vm.keypad (vm.v x) = 0 then
    some { vm with pc := (vm.pc + 4) % 65536 }
  else
    some { vm with keypad := upd vm.keypad (vm.v x) 0, pc := (vm.pc + 2) % 65536 }

/-- `FX07`: `vm.v[x] = vm.delayTimer`. -/
def VM._0x0007_2 (vm : VM) (x : Nat) : VM :=
  { vm with v := upd vm.v x vm.delayTimer, pc := (vm.pc + 2) % 65536 }

/-- `FX0A`: scan the keypad for the first pressed key; if found store its
index in `v[x]` and advance `pc`, else leave both alone; afterwards clear
`keypad[v[x]]` (with the possibly updated `v[x]`; when no key was found
and `v[x] ≥ 16` this indexing is a Go panic, hence `none`). -/
def VM._0x000A (vm : VM) (x : Nat) : Option VM :=
  match (List.range 16).find? (fun j => vm.keypad j != 0) with
  | some j =>
    some { vm with v := upd vm.v x j, pc := (vm.pc + 2) % 65536
                   keypad := upd vm.keypad j 0 }
  | none =>
    if 16 ≤ vm.v x then none
    else some { vm with keypad := upd vm.keypad (vm.v x) 0 }

/-- `FX15`: `vm.delayTimer = vm.v[x]`. -/
def VM._0x0015 (vm : VM) (x : Nat) : VM :=
  { vm with delayTimer := vm.v x, pc := (vm.pc + 2) % 65536 }

/-- `FX18`: `vm.soundTimer = vm.v[x]`. -/
def VM._0x0018 (vm : VM) (x : Nat) : VM :=
  { vm with soundTimer := vm.v x, pc := (vm.pc + 2) % 65536 }

/-- `FX1E`: `vm.i += uint16(vm.v[x])` (uint16 addition wraps). -/
def VM._0x001E (vm : VM) (x : Nat) : VM :=
  { vm with i := (vm.i + vm.v x) % 65536, pc := (vm.pc + 2) % 65536 }

/-- `FX29`: `vm.i = uint16(vm.v[x]) * 5`. -/
def VM._0x0029 (vm : VM) (x : Nat) : VM :=
  { vm with i := (vm.v x * 5) % 65536, pc := (vm.pc + 2) % 65536 }

/-- `FX33`: binary-coded decimal of `v[x]` at `memory[i]`, `memory[i+1]`,
`memory[i+2]` (uint16 indices; out of the 4096-byte array is a Go panic). -/
def VM._0x0033 (vm : VM) (x : Nat) : Option VM :=
  let a0 := vm.i % 65536
  let a1 := (vm.i + 1) % 65536
  let a2 := (vm.i + 2) % 65536
  if 4096 ≤ a0 ∨ 4096 ≤ a1 ∨ 4096 ≤ a2 then none
  else
    some { vm with
            memory := upd (upd (upd vm.memory a0 (vm.v x / 100))
                            a1 (vm.v x / 10 % 10)) a2 (vm.v x % 100 % 10)
            pc := (vm.pc + 2) % 65536 }

/-- The `FX65` loop: `for ind := 0; ind <= x; ind++ { v[ind] = memory[i+ind] }`
with `rem` iterations remaining; a `memory` index outside the 4096-byte
array is a Go panic, hence `none`. -/
def loadRegs (mem : Nat → Nat) (i : Nat) :
    Nat → Nat → (Nat → Nat) → Option (Nat → Nat)
  | _, 0, v => some v
  | ind, rem + 1, v =>
    let addr := (i + ind) % 65536
    if 4096 ≤ addr then none
    else loadRegs mem i (ind + 1) rem (upd v ind (mem addr))

/-- `FX65`: fill `v[0..x]` from `memory[i..i+x]`; `i` is left unchanged. -/
def VM._0x0065 (vm : VM) (x : Nat) : Option VM :=
  match loadRegs vm.memory vm.i 0 (x + 1) vm.v with
  | none => none
  | some v1 => some { vm with v := v1, pc := (vm.pc + 2) % 65536 }

/-- The `FX55` loop: `for ind := 0; ind <= x; ind++ { memory[i+ind] = v[ind] }`
with `rem` iterations remaining; a `memory` index outside the 4096-byte
array is a Go panic, hence `none`. -/
def storeRegs (v : Nat → Nat) (i : Nat) :
    Nat → Nat → (Nat → Nat) → Option (Nat → Nat)
  | _, 0, mem => some mem
  | ind, rem + 1, mem =>
    let addr := (i + ind) % 65536
    if 4096 ≤ addr then none
    else storeRegs v i (ind + 1) rem (upd mem addr (v ind))

/-- `FX55`: store `v[0..x]` into `memory[i..i+x]`; `i` is left unchanged. -/
def VM._0x0055 (vm : VM) (x : Nat) : Option VM :=
  match storeRegs vm.v vm.i 0 (x + 1) vm.memory with
  | none => none
  | some mem1 => some { vm with memory := mem1, pc := (vm.pc + 2) % 65536 }

/-- `delayTimerTick`: decrement the delay timer if it is positive. -/
def VM.delayTimerTick (vm : VM) : VM :=
  if 0 < vm.delayTimer then { vm with delayTimer := vm.delayTimer - 1 } else vm

/-- `soundTimerTick`: if the sound timer is positive, first send one audio
event on the channel when it equals 1, then decrement it. The second
component counts the audio-due signals raised by this tick (0 or 1). -/
def VM.soundTimerTick (vm : VM) : VM × Nat :=
  if 0 < vm.soundTimer then
    ({ vm with soundTimer := vm.soundTimer - 1 },
     if vm.soundTimer = 1 then 1 else 0)
  else (vm, 0)

/-- `maxRomSize = 0xFFF - 0x200`. -/
def maxRomSize : Nat := 0xFFF - 0x200

/-- Outcome of `loadROM` after the ROM bytes were read: either the updated
memory, or a Go `panic` with its message (a panic aborts the process; it is
not an `error` value returned to the caller). -/
inductive LoadOutcome
  | ok (mem : Nat → Nat)
  | panicked (msg : String)

/-- The `loadROM` write loop: `memory[0x200+idx] = rom[idx]` for each byte. -/
def writeROM (mem : Nat → Nat) : List Nat → Nat → (Nat → Nat)
  | [], _ => mem
  | b :: rest, idx => writeROM (upd mem (512 + idx) b) rest (idx + 1)

/-- `loadROM`, from the point where the ROM bytes are in hand:
`if len(rom) > maxRomSize { panic("error: rom too large. Max size: 3583") }`,
otherwise copy the ROM into memory at offset `0x200`. -/
def loadROM (mem : Nat → Nat) (rom : List Nat) : LoadOutcome :=
  if maxRomSize < rom.length then
    .panicked "error: rom too large. Max size: 3583"
  else .ok (writeROM mem rom 0)

/-- Operand-field decode `x := (opcode & 0x0F00) >> 8` (the VX index). -/
def decodeX (op : Nat) : Nat := Nat.shiftRight (Nat.land op 0x0F00) 8

/-- Operand-field decode `y := (opcode & 0x00F0) >> 4` (the VY index). -/
def decodeY (op : Nat) : Nat := Nat.shiftRight (Nat.land op 0x00F0) 4

/-- Operand-field decode `nn := byte(opcode & 0x00FF)`. -/
def decodeNN (op : Nat) : Nat := Nat.land op 0x00FF

/-- Operand-field decode `nnn := opcode & 0x0FFF`. -/
def decodeNNN (op : Nat) : Nat := Nat.land op 0x0FFF

/-- `parseOpcode`: decode the operand fields of `vm.opcode` and dispatch to
the handler, mirroring the nested `switch` statements. An unknown opcode
returns a Go `error` that `emulateCycle` merely logs, so it is embedded as
`some vm` (state unchanged); `none` is reserved for handler panics. `r` is
the random byte consumed by `CXNN`. -/
def VM.parseOpcode (vm : VM) (r : Nat) : Option VM :=
  if Nat.land vm.opcode 0xF000 = 0x0000 then
    if Nat.land vm.opcode 0x00FF = 0x00E0 then some vm._0x00E0
    else if Nat.land vm.opcode 0x00FF = 0x00EE then vm._0x00EE
    else some vm
  else if Nat.land vm.opcode 0xF000 = 0x1000 then
    some (vm._0x1000 (decodeNNN vm.opcode))
  else if Nat.land vm.opcode 0xF000 = 0x2000 then
    vm._0x2000 (decodeNNN vm.opcode)
  else if Nat.land vm.opcode 0xF000 = 0x3000 then
    some (vm._0x3000 (decodeX vm.opcode) (decodeNN vm.opcode))
  else if Nat.land vm.opcode 0xF000 = 0x4000 then
    some (vm._0x4000 (decodeX vm.opcode) (decodeNN vm.opcode))
  else if Nat.land vm.opcode 0xF000 = 0x5000 then
    some (vm._0x5000 (decodeX vm.opcode) (decodeY vm.opcode))
  else if Nat.land vm.opcode 0xF000 = 0x6000 then
    some (vm._0x6000 (decodeX vm.opcode) (decodeNN vm.opcode))
  else if Nat.land vm.opcode 0xF000 = 0x7000 then
    some (vm._0x7000 (decodeX vm.opcode) (decodeNN vm.opcode))
  else if Nat.land vm.opcode 0xF000 = 0x8000 then
    if Nat.land vm.opcode 0x000F = 0x0000 then
      some (vm._0x0000 (decodeX vm.opcode) (decodeY vm.opcode))
    else if Nat.land vm.opcode 0x000F = 0x0001 then
      some (vm._0x0001 (decodeX vm.opcode) (decodeY vm.opcode))
    else if Nat.land vm.opcode 0x000F = 0x0002 then
      some (vm._0x0002 (decodeX vm.opcode) (decodeY vm.opcode))
    else if Nat.land vm.opcode 0x000F = 0x0003 then
      some (vm._0x0003 (decodeX vm.opcode) (decodeY vm.opcode))
    else if Nat.land vm.opcode 0x000F = 0x0004 then
      some (vm._0x0004 (decodeX vm.opcode) (decodeY vm.opcode))
    else if Nat.land vm.opcode 0x000F = 0x0005 then
      some (vm._0x0005 (decodeX vm.opcode) (decodeY vm.opcode))
    else if Nat.land vm.opcode 0x000F = 0x0006 then
      some (vm._0x0006 (decodeX vm.opcode) (decodeY vm.opcode))
    else if Nat.land vm.opcode 0x000F = 0x0007 then
      some (vm._0x0007_1 (decodeX vm.opcode) (decodeY vm.opcode))
    else if Nat.land vm.opcode 0x000F = 0x000E then
      some (vm._0x000E (decodeX vm.opcode) (decodeY vm.opcode))
    else some vm
  else if Nat.land vm.opcode 0xF000 = 0x9000 then
    some (vm._0x9000 (decodeX vm.opcode) (decodeY vm.opcode))
  else if Nat.land vm.opcode 0xF000 = 0xA000 then
    some (vm._0xA000 (decodeNNN vm.opcode))
  else if Nat.land vm.opcode 0xF000 = 0xB000 then
    some (vm._0xB000 (decodeNNN vm.opcode))
  else if Nat.land vm.opcode 0xF000 = 0xC000 then
    some (vm._0xC000 (decodeX vm.opcode) (decodeNN vm.opcode) r)
  else if Nat.land vm.opcode 0xF000 = 0xD000 then
    vm._0xD000 (decodeX vm.opcode) (decodeY vm.opcode)
  else if Nat.land vm.opcode 0xF000 = 0xE000 then
    if Nat.land vm.opcode 0x00FF = 0x009E then vm._0x009E (decodeX vm.opcode)
    else if Nat.land vm.opcode 0x00FF = 0x00A1 then vm._0x00A1 (decodeX vm.opcode)
    else some vm
  else if Nat.land vm.opcode 0xF000 = 0xF000 then
    if Nat.land vm.opcode 0x00FF = 0x0007 then some (vm._0x0007_2 (decodeX vm.opcode))
    else if Nat.land vm.opcode 0x00FF = 0x000A then vm._0x000A (decodeX vm.opcode)
    else if Nat.land vm.opcode 0x00FF = 0x0015 then some (vm._0x0015 (decodeX vm.opcode))
    else if Nat.land vm.opcode 0x00FF = 0x0018 then some (vm._0x0018 (decodeX vm.opcode))
    else if Nat.land vm.opcode 0x00FF = 0x001E then some (vm._0x001E (decodeX vm.opcode))
    else if Nat.land vm.opcode 0x00FF = 0x0029 then some (vm._0x0029 (decodeX vm.opcode))
    else if Nat.land vm.opcode 0x00FF = 0x0033 then vm._0x0033 (decodeX vm.opcode)
    else if Nat.land vm.opcode 0x00FF = 0x0055 then vm._0x0055 (decodeX vm.opcode)
    else if Nat.land vm.opcode 0x00FF = 0x0065 then vm._0x0065 (decodeX vm.opcode)
    else some vm
  else some vm

/-- `emulateCycle`: fetch the big-endian opcode at `pc`/`pc+1` (a `memory`
index outside the 4096-byte array is a Go panic), reset `drawFlag` to
false, then `parseOpcode`. -/
def VM.emulateCycle (vm : VM) (r : Nat) : Option VM :=
  if 4096 ≤ vm.pc then none
  else if 4096 ≤ (vm.pc + 1) % 65536 then none
  else
    VM.parseOpcode
      { vm with
          opcode := Nat.lor (Nat.shiftLeft (vm.memory vm.pc) 8)
                      (vm.memory ((vm.pc + 1) % 65536))
          drawFlag := false } r

/-! ### Concrete states used by counterexamples and witnesses -/

/-- State with `V0 = 10` and `VF = 20`, for the `ADD VX,VY` aliasing
counterexample. -/
def vmC1 : VM := { vm0 with v := upd (upd vm0.v 0 10) 15 20 }

/-- State with `V0 = 200` and `V1 = 100` (a carrying pair). -/
def vmW1 : VM := { vm0 with v := upd (upd vm0.v 0 200) 1 100 }

/-- State with `V1 = 128` (bit 7 set), for the shift-left counterexample. -/
def vmC4 : VM := { vm0 with v := upd vm0.v 1 128 }

/-- State with `V3 = 129`. -/
def vmW4 : VM := { vm0 with v := upd vm0.v 3 129 }

/-- State with the sound timer at 1. -/
def vmT1 : VM := { vm0 with soundTimer := 1 }

/-- State with the sound timer at 5. -/
def vmT5 : VM := { vm0 with soundTimer := 5 }

/-- State with `I = 32`, `V0 = 7`, `V1 = 9`. -/
def vmW10 : VM := { vm0 with i := 32, v := upd (upd vm0.v 0 7) 1 9 }

/-- The state `FX55` with `X = 1` produces from `vmW10`: `V0`,`V1` stored at
memory 32 and 33. -/
def vmW10s : VM :=
  { vmW10 with memory := upd (upd vmW10.memory 32 7) 33 9, pc := 514 }

/-- The state `FX65` with `X = 1` produces from `vmW10`: `V0`,`V1` loaded
from the zeroed memory at 32 and 33. -/
def vmW10l : VM := { vmW10 with v := upd (upd vmW10.v 0 0) 1 0, pc := 514 }

/-! ### C1 — `8XY4` add with carry -/

/-- C1 (counterexample): the claim "executing ADD VX,VY with VX=a, VY=b
leaves VX=(a+b) mod 256 ... for every pair of register indices X and Y"
fails at X=0, Y=0xF with V0=10, VF=20: the handler writes the carry into
VF before performing the addition, so the addend read from VF is the carry
bit (0), and V0 ends at 10, not (10+20) mod 256 = 30. -/
theorem C1_add_counterexample :
    (VM._0x0004 vmC1 0 15).v 0 ≠ (vmC1.v 0 + vmC1.v 15) % 256 := by decide

/-- C1 (amended): for register indices X ≠ 0xF and Y ≠ 0xF and byte values
in the registers, `8XY4` leaves VX = (VX+VY) mod 256 and VF = 1 iff
VX+VY > 255 (VF = 0 otherwise). -/
theorem C1_add_amended (vm : VM) (x y : Nat)
    (hx : x < 16) (hy : y < 16) (hxF : x ≠ 15) (hyF : y ≠ 15)
    (ha : vm.v x < 256) (hb : vm.v y < 256) :
    (VM._0x0004 vm x y).v x = (vm.v x + vm.v y) % 256 ∧
    (VM._0x0004 vm x y).v 15 = if 255 < vm.v x + vm.v y then 1 else 0 := by
  refine ⟨?_, ?_⟩ <;> simp only [VM._0x0004, upd]
  · simp [hxF, hyF]
  · simp [Ne.symm hxF]
    split_ifs with h1 h2 <;> omega

/-- C1 (witness): the amended theorem instantiated at `vmW1`, X=0, Y=1. -/
theorem C1_add_witness :
    (VM._0x0004 vmW1 0 1).v 0 = (vmW1.v 0 + vmW1.v 1) % 256 ∧
    (VM._0x0004 vmW1 0 1).v 15 = if 255 < vmW1.v 0 + vmW1.v 1 then 1 else 0 :=
  C1_add_amended vmW1 0 1 (by decide) (by decide) (by decide) (by decide)
    (by decide) (by decide)

/-! ### C2 — `2NNN` then `00EE` -/

/-- C2: for any call target NNN and any pre-call PC in the valid 0x000–0xFFF
range, with the call stack not full (SP ≤ 14, so the pushed slot SP+1 is
within the 16-entry stack), executing `2NNN` and then `00EE` leaves PC at
the address of the call instruction plus 2. -/
theorem C2_call_ret (vm : VM) (nnn : Nat) (hsp : vm.sp ≤ 14) (hpc : vm.pc < 4096) :
    ((VM._0x2000 vm nnn).bind VM._0x00EE).map VM.pc = some (vm.pc + 2) := by
  have e1 : (vm.sp + 1) % 65536 = vm.sp + 1 := Nat.mod_eq_of_lt (by omega)
  have h1 : ¬ 16 ≤ vm.sp + 1 := by omega
  have h2 : (vm.pc + 2) % 65536 = vm.pc + 2 := Nat.mod_eq_of_lt (by omega)
  simp [VM._0x2000, VM._0x00EE, e1, h1, upd, h2]

/-- C2 (witness): a call to 0x300 from the initial state (PC = 0x200,
SP = 0) returns to 0x202. -/
theorem C2_call_ret_witness :
    ((VM._0x2000 vm0 768).bind VM._0x00EE).map VM.pc = some (vm0.pc + 2) :=
  C2_call_ret vm0 768 (by decide) (by decide)

/-! ### C4 — `8XY6` / `8XYE` shifts -/

set_option maxRecDepth 8192 in
/-- Bitwise AND of a byte with `0x80` selects bit 7, scaled by 128. -/
theorem land128_eq : ∀ b < 256, Nat.land b 128 = if 128 ≤ b then 128 else 0 := by
  decide

/-- C4 (counterexample): the claim "shift-left (8XYE) sets VF to VY's bit 7
(value 0 or 1)" fails at X=0, Y=1 with V1=128: the handler stores
`VY & 0x80`, so VF ends at 128, not 1. -/
theorem C4_shift_counterexample :
    (VM._0x000E vmC4 0 1).v 15 = 128 ∧ (VM._0x000E vmC4 0 1).v 15 ≠ 1 := by
  decide

/-- C4 (amended): for register indices X ≠ 0xF and X ≠ Y and a byte value
in VY: `8XY6` sets VX = VY >> 1 and VF = VY & 1 (the bit shifted out, 0 or
1), and `8XYE` sets VX = (VY << 1) mod 256 and VF = VY & 0x80 (128 if VY's
bit 7 is set, else 0 — not a 0/1 value). When X = 0xF or X = Y the handlers
read the register file after writing VX, so these equations need not hold. -/
theorem C4_shift_amended (vm : VM) (x y : Nat)
    (hx : x < 16) (hy : y < 16) (hxF : x ≠ 15) (hxy : x ≠ y)
    (hb : vm.v y < 256) :
    (VM._0x0006 vm x y).v x = vm.v y / 2 ∧
    (VM._0x0006 vm x y).v 15 = vm.v y % 2 ∧
    (VM._0x000E vm x y).v x = (vm.v y * 2) % 256 ∧
    (VM._0x000E vm x y).v 15 = if 128 ≤ vm.v y then 128 else 0 := by
  refine ⟨?_, ?_, ?_, ?_⟩ <;>
    simp only [VM._0x0006, VM._0x000E, upd] <;>
    simp [hxF, Ne.symm hxF, Ne.symm hxy]
  · exact Nat.and_one_is_mod (vm.v y)
  · exact land128_eq (vm.v y) hb

/-- C4 (witness): the amended theorem instantiated at `vmW4`, X=2, Y=3
(V3 = 129, so both the shifted-out low bit and bit 7 are set). -/
theorem C4_shift_witness :
    (VM._0x0006 vmW4 2 3).v 2 = vmW4.v 3 / 2 ∧
    (VM._0x0006 vmW4 2 3).v 15 = vmW4.v 3 % 2 ∧
    (VM._0x000E vmW4 2 3).v 2 = (vmW4.v 3 * 2) % 256 ∧
    (VM._0x000E vmW4 2 3).v 15 = if 128 ≤ vmW4.v 3 then 128 else 0 :=
  C4_shift_amended vmW4 2 3 (by decide) (by decide) (by decide) (by decide)
    (by decide)

/-! ### C5 — `BNNN` -/

/-- C5 (code bug): the claim (and the dispatcher's own comment
"BNNN -> Jump to address NNN + V0") says PC = NNN + V0 with no further
advance, but the handler executes `vm.pc = nnn + uint16(vm.v[0])` followed
by `vm.pc += 2`: from the initial state (V0 = 0), `BNNN` with NNN = 0x300
leaves PC = 0x302, not 0x300. -/
theorem C5_bnnn_code_bug :
    (VM._0xB000 vm0 768).pc = 770 ∧
    (VM._0xB000 vm0 768).pc ≠ (768 + vm0.v 0) % 65536 := by decide

/-! ### C6 — ROM size limit -/

/-- C6 (counterexample): the claim says a ROM one byte over the limit
"fails with a RomTooLargeError, surfaced to the caller as a returned
error", but `loadROM` executes `panic(...)` on that path — the process
aborts; no error value is returned (no `RomTooLargeError` exists in the
code). -/
theorem C6_loadROM_counterexample :
    loadROM vm0.memory (List.replicate 3584 0) =
      .panicked "error: rom too large. Max size: 3583" := by
  rw [loadROM, if_pos (by rw [List.length_replicate]; decide)]

/-- C6 (amended): a ROM of at most `maxRomSize = 0xFFF - 0x200 = 3583`
bytes (in particular exactly 3583) is copied into memory at offset 0x200
and `loadROM` succeeds; any larger ROM triggers a Go `panic` with message
"error: rom too large. Max size: 3583" instead of returning an error. -/
theorem C6_loadROM_amended (mem : Nat → Nat) (rom : List Nat) :
    (rom.length ≤ maxRomSize → loadROM mem rom = .ok (writeROM mem rom 0)) ∧
    (maxRomSize < rom.length →
      loadROM mem rom = .panicked "error: rom too large. Max size: 3583") := by
  unfold loadROM
  constructor <;> intro h
  · rw [if_neg (by omega)]
  · rw [if_pos h]

/-- C6 (witness): a ROM of exactly 3583 bytes loads successfully. -/
theorem C6_loadROM_witness :
    loadROM vm0.memory (List.replicate 3583 0) =
      .ok (writeROM vm0.memory (List.replicate 3583 0) 0) :=
  (C6_loadROM_amended vm0.memory (List.replicate 3583 0)).1
    (by rw [List.length_replicate]; decide)

/-! ### C7 — stack overflow / underflow -/

/-- C7 (code bug): stack misuse is not explicitly handled. A call `2NNN`
with SP = 15 increments SP to 16 and indexes `stack[16]`, outside the
16-entry array (a Go runtime panic, modelled as `none`); a return `00EE`
with SP = 0 reads `stack[0]` and then wraps the uint16 stack pointer to
65535 — neither clamped nor reported as an error. -/
theorem C7_stack_code_bug :
    VM._0x2000 { vm0 with sp := 15 } 768 = none ∧
    (VM._0x00EE vm0).map VM.sp = some 65535 :=
  ⟨rfl, rfl⟩

/-! ### C9 — sound timer tick -/

/-- C9: a tick with the sound timer at 1 makes it 0 and raises exactly one
audio-due signal; a tick with the timer at any other value raises no
signal; a tick at 0 leaves the timer at 0; and `FX18` sets the sound timer
to VX (so FX18 with VX=1 puts the timer in the signalling state). -/
theorem C9_soundTimer (vm : VM) (x : Nat) :
    (vm.soundTimer = 1 →
      (VM.soundTimerTick vm).1.soundTimer = 0 ∧ (VM.soundTimerTick vm).2 = 1) ∧
    (vm.soundTimer ≠ 1 → (VM.soundTimerTick vm).2 = 0) ∧
    (vm.soundTimer = 0 → (VM.soundTimerTick vm).1.soundTimer = 0) ∧
    (VM._0x0018 vm x).soundTimer = vm.v x := by
  unfold VM.soundTimerTick VM._0x0018
  refine ⟨fun h => ?_, fun h => ?_, fun h => ?_, rfl⟩
  · simp [h]
  · split_ifs <;> simp [h]
  · simp [h]

/-- C9 (witness): the three tick clauses at timers 1, 5 and 0. -/
theorem C9_soundTimer_witness :
    ((VM.soundTimerTick vmT1).1.soundTimer = 0 ∧ (VM.soundTimerTick vmT1).2 = 1) ∧
    (VM.soundTimerTick vmT5).2 = 0 ∧
    (VM.soundTimerTick vm0).1.soundTimer = 0 :=
  ⟨(C9_soundTimer vmT1 0).1 rfl, (C9_soundTimer vmT5 0).2.1 (by decide),
    (C9_soundTimer vm0 0).2.2.1 rfl⟩

/-! ### C10 — `FX55` / `FX65` frame conditions -/

/-- Every iteration a successful `FX55` store loop performs used an
in-range memory address. -/
theorem storeRegs_some_addr (v : Nat → Nat) (i : Nat) :
    ∀ rem ind mem mem2, storeRegs v i ind rem mem = some mem2 →
      ∀ d, ind ≤ d → d < ind + rem → (i + d) % 65536 < 4096 := by
  intro rem
  induction rem with
  | zero => intro ind mem mem2 _ d h1 h2; omega
  | succ n ih =>
    intro ind mem mem2 h d h1 h2
    rw [storeRegs] at h
    split_ifs at h with hc
    rcases eq_or_lt_of_le h1 with rfl | hlt
    · omega
    · exact ih (ind + 1) _ mem2 h d (by omega) (by omega)

/-- A successful `FX55` store loop changes no memory cell outside the
addresses it wrote. -/
theorem storeRegs_frame (v : Nat → Nat) (i : Nat) :
    ∀ rem ind mem mem2, storeRegs v i ind rem mem = some mem2 →
      ∀ a, (∀ d, ind ≤ d → d < ind + rem → a ≠ (i + d) % 65536) →
        mem2 a = mem a := by
  intro rem
  induction rem with
  | zero =>
    intro ind mem mem2 h a _
    rw [storeRegs] at h
    exact congrFun (Option.some.inj h).symm a
  | succ n ih =>
    intro ind mem mem2 h a hne
    rw [storeRegs] at h
    split_ifs at h with hc
    have e1 : mem2 a = upd mem ((i + ind) % 65536) (v ind) a :=
      ih (ind + 1) _ mem2 h a (fun d hd1 hd2 => hne d (by omega) (by omega))
    rw [e1, upd, if_neg (hne ind (by omega) (by omega))]

/-- C10: a successful `FX55` (store V0..VX) and a successful `FX65`
(load V0..VX) both leave the index register I unchanged (it is not
advanced to I+X+1), and `FX55` modifies no memory cell outside addresses
I..I+X. -/
theorem C10_store_load_frame (vm vm2 vm3 : VM) (x a : Nat) (hx : x < 16)
    (h55 : VM._0x0055 vm x = some vm2) (h65 : VM._0x0065 vm x = some vm3)
    (hi : vm.i < 65536) (ha : a < vm.i ∨ vm.i + x < a) :
    vm2.i = vm.i ∧ vm3.i = vm.i ∧ vm2.memory a = vm.memory a := by
  unfold VM._0x0055 at h55
  unfold VM._0x0065 at h65
  rcases e55 : storeRegs vm.v vm.i 0 (x + 1) vm.memory with _ | mem1 <;>
    rw [e55] at h55
  · exact absurd h55 (by simp)
  rcases e65 : loadRegs vm.memory vm.i 0 (x + 1) vm.v with _ | v1 <;>
    rw [e65] at h65
  · exact absurd h65 (by simp)
  obtain rfl := (Option.some.inj h55).symm
  obtain rfl := (Option.some.inj h65).symm
  refine ⟨rfl, rfl, ?_⟩
  have hlow : vm.i < 4096 := by
    have := storeRegs_some_addr vm.v vm.i (x + 1) 0 vm.memory mem1 e55 0
      (by omega) (by omega)
    rwa [Nat.add_zero, Nat.mod_eq_of_lt hi] at this
  exact storeRegs_frame vm.v vm.i (x + 1) 0 vm.memory mem1 e55 a
    (fun d hd1 hd2 => by rw [Nat.mod_eq_of_lt (by omega)]; omega)

/-- C10 (witness): from `vmW10` (I = 32, V0 = 7, V1 = 9), `FX55` and `FX65`
with X = 1 produce `vmW10s` and `vmW10l`; I stays 32 and memory cell 100 is
untouched. -/
theorem C10_witness :
    vmW10s.i = vmW10.i ∧ vmW10l.i = vmW10.i ∧
    vmW10s.memory 100 = vmW10.memory 100 :=
  C10_store_load_frame vmW10 vmW10s vmW10l 1 100 (by decide) rfl rfl
    (by decide) (Or.inr (by decide))

/-! ### C3 — `DXYN` clipping / frame behavior -/

/-- Projection of the gfx cell `a` out of an optional post-state. -/
def gfxAfter (o : Option VM) (a : Nat) : Option Nat :=
  o.map fun m => m.gfx a

/-- State for the `DXYN` clipping counterexample: `V0 = 63` (right edge),
`V1 = 0`, sprite byte `0xC0` at memory 0, opcode `0xD011` (height 1). -/
def vmC3 : VM :=
  { vm0 with v := upd vm0.v 0 63, memory := upd vm0.memory 0 192
             opcode := 53265 }

/-- State for the `DXYN` frame witness: `V0 = 3`, `V1 = 5`, sprite byte
`0xFF` at memory 0, opcode `0xD011` (height 1). -/
def vmW3 : VM :=
  { vm0 with v := upd (upd vm0.v 0 3) 1 5, memory := upd vm0.memory 0 255
             opcode := 53265 }

/-- The post-state `DXYN` produces from `vmW3`: the eight pixels at linear
indices 323..330 are set, `VF = 0`, `drawFlag` raised, `pc` advanced. -/
def vmW3r : VM :=
  { vmW3 with
      gfx := upd (upd (upd (upd (upd (upd (upd (upd vmW3.gfx
               323 1) 324 1) 325 1) 326 1) 327 1) 328 1) 329 1) 330 1
      v := upd vmW3.v 15 0
      drawFlag := true
      pc := 514 }

/-- A single sprite pixel step leaves every gfx cell unchanged except its
own in-range target index. -/
theorem spriteRowStep_frame (x ytot pix : Nat) (st : (Nat → Nat) × Nat)
    (xl a : Nat) (ha : 2048 ≤ a ∨ a ≠ (x + xl + ytot * 64) % 65536) :
    (spriteRowStep x ytot pix st xl).1 a = st.1 a := by
  simp only [spriteRowStep]
  split_ifs with h1 h2 h3 <;>
    first
      | rfl
      | (simp only [upd]; rw [if_neg (by omega)])

/-- Folding the pixel step over a list of columns leaves every gfx cell
off the targeted indices unchanged. -/
theorem spriteRow_foldl_frame (x ytot pix a : Nat) :
    ∀ (l : List Nat) (st : (Nat → Nat) × Nat),
      (∀ xl ∈ l, 2048 ≤ a ∨ a ≠ (x + xl + ytot * 64) % 65536) →
      (l.foldl (spriteRowStep x ytot pix) st).1 a = st.1 a := by
  intro l
  induction l with
  | nil => intro st _; rfl
  | cons hd tl ih =>
    intro st h
    rw [List.foldl_cons,
      ih _ (fun xl hxl => h xl (List.mem_cons_of_mem hd hxl))]
    exact spriteRowStep_frame x ytot pix st hd a (h hd (List.mem_cons_self hd tl))

/-- One sprite row leaves every gfx cell off its eight targeted indices
unchanged. -/
theorem drawRow_frame (x ytot pix : Nat) (st : (Nat → Nat) × Nat) (a : Nat)
    (h : ∀ xl < 8, 2048 ≤ a ∨ a ≠ (x + xl + ytot * 64) % 65536) :
    (drawRow x ytot pix st).1 a = st.1 a :=
  spriteRow_foldl_frame x ytot pix a (List.range 8) st
    (fun xl hxl => h xl (List.mem_range.mp hxl))

/-- A successful run of the `drawSprite` row loop leaves every gfx cell off
the targeted indices unchanged. -/
theorem drawRows_frame (mem : Nat → Nat) (i x y a : Nat) :
    ∀ (rem yLine : Nat) (st res : (Nat → Nat) × Nat),
      drawRows mem i x y yLine rem st = some res →
      (∀ yl, yLine ≤ yl → yl < yLine + rem →
        ∀ xl < 8, 2048 ≤ a ∨ a ≠ (x + xl + (y + yl) * 64) % 65536) →
      res.1 a = st.1 a := by
  intro rem
  induction rem with
  | zero =>
    intro yLine st res h _
    rw [drawRows] at h
    rw [← Option.some.inj h]
  | succ n ih =>
    intro yLine st res h hy
    rw [drawRows] at h
    split_ifs at h with hc
    rw [ih (yLine + 1) _ res h (fun yl h1 h2 => hy yl (by omega) (by omega))]
    exact drawRow_frame x (y + yLine) (mem ((i + yLine) % 65536)) st a
      (hy yLine (by omega) (by omega))

/-- C3 (amended): a successful `DXYN` only ever modifies gfx cells whose
flat index is `(VX + xl + (VY + yl)*64) mod 2^16` for some column `xl < 8`
and row `yl < N`, and never a cell with flat index ≥ 2048 (indices past
the 2048-cell array are dropped, so sprites never wrap vertically).
Horizontal clipping, however, is NOT performed: a pixel past the right
edge of a row has flat index `VX + xl + VY*64 ≥ (VY+1)*64`, which is still
< 2048 for rows before the last, so it lands at the start of the next row
instead of being dropped — cells outside the rectangle anchored at
(VX, VY) can be modified (see the counterexample). -/
theorem C3_draw_frame (vm vm2 : VM) (x y a : Nat)
    (h : VM._0xD000 vm x y = some vm2)
    (ha : 2048 ≤ a ∨ ∀ yl < Nat.land vm.opcode 15, ∀ xl < 8,
      a ≠ (vm.v x + xl + (vm.v y + yl) * 64) % 65536) :
    vm2.gfx a = vm.gfx a := by
  unfold VM._0xD000 at h
  rcases e : vm.drawSprite (vm.v x) (vm.v y) with _ | vm1 <;> rw [e] at h
  · exact absurd h (by simp)
  obtain rfl := (Option.some.inj h).symm
  unfold VM.drawSprite at e
  rcases e2 : drawRows vm.memory vm.i (vm.v x) (vm.v y) 0
      (Nat.land vm.opcode 15) (vm.gfx, 0) with _ | st <;> rw [e2] at e
  · exact absurd e (by simp)
  obtain rfl := (Option.some.inj e).symm
  show st.1 a = vm.gfx a
  exact drawRows_frame vm.memory vm.i (vm.v x) (vm.v y) a
    (Nat.land vm.opcode 15) 0 (vm.gfx, 0) st e2
    (fun yl h1 h2 xl hxl => by
      rcases ha with ha | ha
      · exact Or.inl ha
      · exact Or.inr (ha yl (by omega) xl hxl))

/-- C3 (counterexample): the claim "every pixel that would land outside
the 64x32 grid is dropped, not wrapped: no framebuffer cell outside the
rectangle anchored at (VX, VY) is modified" fails: drawing the 1-row
sprite `0xC0` at (VX, VY) = (63, 0) sets gfx cell 64 — screen position
(0, 1), on the next row, outside the rectangle anchored at (63, 0) —
because the second sprite pixel has flat index 63 + 1 + 0*64 = 64 < 2048
and only the ≥ 2048 bound is checked. -/
theorem C3_draw_counterexample :
    gfxAfter (VM._0xD000 vmC3 0 1) 64 = some 1 ∧ vmC3.gfx 64 = 0 :=
  ⟨rfl, rfl⟩

/-- C3 (witness): the amended frame theorem at `vmW3` (sprite at (3,5),
height 1): the untargeted cell 100 is unchanged. -/
theorem C3_draw_witness : vmW3r.gfx 100 = vmW3.gfx 100 :=
  C3_draw_frame vmW3 vmW3r 0 1 100 rfl (Or.inr (by decide))

/-! ### C8 — the redraw flag after a cycle -/

/-- `00EE` preserves `opcode` and `drawFlag`. -/
theorem flagsOpt_0x00EE (vm vm2 : VM) (h : vm._0x00EE = some vm2) :
    vm2.opcode = vm.opcode ∧ vm2.drawFlag = vm.drawFlag := by
  unfold VM._0x00EE at h
  split_ifs at h
  obtain rfl := (Option.some.inj h).symm
  exact ⟨rfl, rfl⟩

/-- `2NNN` preserves `opcode` and `drawFlag`. -/
theorem flagsOpt_0x2000 (vm vm2 : VM) (nnn : Nat) (h : vm._0x2000 nnn = some vm2) :
    vm2.opcode = vm.opcode ∧ vm2.drawFlag = vm.drawFlag := by
  simp only [VM._0x2000] at h
  split_ifs at h
  obtain rfl := (Option.some.inj h).symm
  exact ⟨rfl, rfl⟩

/-- `EX9E` preserves `opcode` and `drawFlag`. -/
theorem flagsOpt_0x009E (vm vm2 : VM) (x : Nat) (h : vm._0x009E x = some vm2) :
    vm2.opcode = vm.opcode ∧ vm2.drawFlag = vm.drawFlag := by
  unfold VM._0x009E at h
  split_ifs at h <;>
    (obtain rfl := (Option.some.inj h).symm; exact ⟨rfl, rfl⟩)

/-- `EXA1` preserves `opcode` and `drawFlag`. -/
theorem flagsOpt_0x00A1 (vm vm2 : VM) (x : Nat) (h : vm._0x00A1 x = some vm2) :
    vm2.opcode = vm.opcode ∧ vm2.drawFlag = vm.drawFlag := by
  unfold VM._0x00A1 at h
  split_ifs at h <;>
    (obtain rfl := (Option.some.inj h).symm; exact ⟨rfl, rfl⟩)

/-- `FX0A` preserves `opcode` and `drawFlag`. -/
theorem flagsOpt_0x000A (vm vm2 : VM) (x : Nat) (h : vm._0x000A x = some vm2) :
    vm2.opcode = vm.opcode ∧ vm2.drawFlag = vm.drawFlag := by
  unfold VM._0x000A at h
  split at h
  · obtain rfl := (Option.some.inj h).symm
    exact ⟨rfl, rfl⟩
  · split_ifs at h
    obtain rfl := (Option.some.inj h).symm
    exact ⟨rfl, rfl⟩

/-- `FX33` preserves `opcode` and `drawFlag`. -/
theorem flagsOpt_0x0033 (vm vm2 : VM) (x : Nat) (h : vm._0x0033 x = some vm2) :
    vm2.opcode = vm.opcode ∧ vm2.drawFlag = vm.drawFlag := by
  simp only [VM._0x0033] at h
  split_ifs at h
  obtain rfl := (Option.some.inj h).symm
  exact ⟨rfl, rfl⟩

/-- `FX55` preserves `opcode` and `drawFlag`. -/
theorem flagsOpt_0x0055 (vm vm2 : VM) (x : Nat) (h : vm._0x0055 x = some vm2) :
    vm2.opcode = vm.opcode ∧ vm2.drawFlag = vm.drawFlag := by
  unfold VM._0x0055 at h
  split at h
  · exact absurd h (by simp)
  · obtain rfl := (Option.some.inj h).symm
    exact ⟨rfl, rfl⟩

/-- `FX65` preserves `opcode` and `drawFlag`. -/
theorem flagsOpt_0x0065 (vm vm2 : VM) (x : Nat) (h : vm._0x0065 x = some vm2) :
    vm2.opcode = vm.opcode ∧ vm2.drawFlag = vm.drawFlag := by
  unfold VM._0x0065 at h
  split at h
  · exact absurd h (by simp)
  · obtain rfl := (Option.some.inj h).symm
    exact ⟨rfl, rfl⟩

/-- A successful `DXYN` preserves `opcode` and raises `drawFlag`. -/
theorem flagsOpt_0xD000 (vm vm2 : VM) (x y : Nat) (h : vm._0xD000 x y = some vm2) :
    vm2.opcode = vm.opcode ∧ vm2.drawFlag = true := by
  unfold VM._0xD000 at h
  rcases e : vm.drawSprite (vm.v x) (vm.v y) with _ | vm1 <;> rw [e] at h
  · exact absurd h (by simp)
  obtain rfl := (Option.some.inj h).symm
  unfold VM.drawSprite at e
  rcases e2 : drawRows vm.memory vm.i (vm.v x) (vm.v y) 0
      (Nat.land vm.opcode 15) (vm.gfx, 0) with _ | st <;> rw [e2] at e
  · exact absurd e (by simp)
  obtain rfl := (Option.some.inj e).symm
  exact ⟨rfl, rfl⟩

/-- `parseOpcode` reduced on the opcode family `0x0000`. -/
theorem parseOpcode_eq_fam0 (vm : VM) (r : Nat)
    (hf : Nat.land vm.opcode 0xF000 = 0x0000) :
    vm.parseOpcode r = (if Nat.land vm.opcode 0x00FF = 0x00E0 then some vm._0x00E0
      else if Nat.land vm.opcode 0x00FF = 0x00EE then vm._0x00EE
      else some vm) := by
  unfold VM.parseOpcode
  simp [hf]

/-- `parseOpcode` reduced on the opcode family `0x1000`. -/
theorem parseOpcode_eq_fam1 (vm : VM) (r : Nat)
    (hf : Nat.land vm.opcode 0xF000 = 0x1000) :
    vm.parseOpcode r = some (vm._0x1000 (decodeNNN vm.opcode)) := by
  unfold VM.parseOpcode
  simp [hf]

/-- `parseOpcode` reduced on the opcode family `0x2000`. -/
theorem parseOpcode_eq_fam2 (vm : VM) (r : Nat)
    (hf : Nat.land vm.opcode 0xF000 = 0x2000) :
    vm.parseOpcode r = vm._0x2000 (decodeNNN vm.opcode) := by
  unfold VM.parseOpcode
  simp [hf]

/-- `parseOpcode` reduced on the opcode family `0x3000`. -/
theorem parseOpcode_eq_fam3 (vm : VM) (r : Nat)
    (hf : Nat.land vm.opcode 0xF000 = 0x3000) :
    vm.parseOpcode r = some (vm._0x3000 (decodeX vm.opcode) (decodeNN vm.opcode)) := by
  unfold VM.parseOpcode
  simp [hf]

/-- `parseOpcode` reduced on the opcode family `0x4000`. -/
theorem parseOpcode_eq_fam4 (vm : VM) (r : Nat)
    (hf : Nat.land vm.opcode 0xF000 = 0x4000) :
    vm.parseOpcode r = some (vm._0x4000 (decodeX vm.opcode) (decodeNN vm.opcode)) := by
  unfold VM.parseOpcode
  simp [hf]

/-- `parseOpcode` reduced on the opcode family `0x5000`. -/
theorem parseOpcode_eq_fam5 (vm : VM) (r : Nat)
    (hf : Nat.land vm.opcode 0xF000 = 0x5000) :
    vm.parseOpcode r = some (vm._0x5000 (decodeX vm.opcode) (decodeY vm.opcode)) := by
  unfold VM.parseOpcode
  simp [hf]

/-- `parseOpcode` reduced on the opcode family `0x6000`. -/
theorem parseOpcode_eq_fam6 (vm : VM) (r : Nat)
    (hf : Nat.land vm.opcode 0xF000 = 0x6000) :
    vm.parseOpcode r = some (vm._0x6000 (decodeX vm.opcode) (decodeNN vm.opcode)) := by
  unfold VM.parseOpcode
  simp [hf]

/-- `parseOpcode` reduced on the opcode family `0x7000`. -/
theorem parseOpcode_eq_fam7 (vm : VM) (r : Nat)
    (hf : Nat.land vm.opcode 0xF000 = 0x7000) :
    vm.parseOpcode r = some (vm._0x7000 (decodeX vm.opcode) (decodeNN vm.opcode)) := by
  unfold VM.parseOpcode
  simp [hf]

/-- `parseOpcode` reduced on the opcode family `0x8000`. -/
theorem parseOpcode_eq_fam8 (vm : VM) (r : Nat)
    (hf : Nat.land vm.opcode 0xF000 = 0x8000) :
    vm.parseOpcode r = (if Nat.land vm.opcode 0x000F = 0x0000 then
        some (vm._0x0000 (decodeX vm.opcode) (decodeY vm.opcode))
      else if Nat.land vm.opcode 0x000F = 0x0001 then
        some (vm._0x0001 (decodeX vm.opcode) (decodeY vm.opcode))
      else if Nat.land vm.opcode 0x000F = 0x0002 then
        some (vm._0x0002 (decodeX vm.opcode) (decodeY vm.opcode))
      else if Nat.land vm.opcode 0x000F = 0x0003 then
        some (vm._0x0003 (decodeX vm.opcode) (decodeY vm.opcode))
      else if Nat.land vm.opcode 0x000F = 0x0004 then
        some (vm._0x0004 (decodeX vm.opcode) (decodeY vm.opcode))
      else if Nat.land vm.opcode 0x000F = 0x0005 then
        some (vm._0x0005 (decodeX vm.opcode) (decodeY vm.opcode))
      else if Nat.land vm.opcode 0x000F = 0x0006 then
        some (vm._0x0006 (decodeX vm.opcode) (decodeY vm.opcode))
      else if Nat.land vm.opcode 0x000F = 0x0007 then
        some (vm._0x0007_1 (decodeX vm.opcode) (decodeY vm.opcode))
      else if Nat.land vm.opcode 0x000F = 0x000E then
        some (vm._0x000E (decodeX vm.opcode) (decodeY vm.opcode))
      else some vm) := by
  unfold VM.parseOpcode
  simp [hf]

/-- `parseOpcode` reduced on the opcode family `0x9000`. -/
theorem parseOpcode_eq_fam9 (vm : VM) (r : Nat)
    (hf : Nat.land vm.opcode 0xF000 = 0x9000) :
    vm.parseOpcode r = some (vm._0x9000 (decodeX vm.opcode) (decodeY vm.opcode)) := by
  unfold VM.parseOpcode
  simp [hf]

/-- `parseOpcode` reduced on the opcode family `0xA000`. -/
theorem parseOpcode_eq_fam10 (vm : VM) (r : Nat)
    (hf : Nat.land vm.opcode 0xF000 = 0xA000) :
    vm.parseOpcode r = some (vm._0xA000 (decodeNNN vm.opcode)) := by
  unfold VM.parseOpcode
  simp [hf]

/-- `parseOpcode` reduced on the opcode family `0xB000`. -/
theorem parseOpcode_eq_fam11 (vm : VM) (r : Nat)
    (hf : Nat.land vm.opcode 0xF000 = 0xB000) :
    vm.parseOpcode r = some (vm._0xB000 (decodeNNN vm.opcode)) := by
  unfold VM.parseOpcode
  simp [hf]

/-- `parseOpcode` reduced on the opcode family `0xC000`. -/
theorem parseOpcode_eq_fam12 (vm : VM) (r : Nat)
    (hf : Nat.land vm.opcode 0xF000 = 0xC000) :
    vm.parseOpcode r = some (vm._0xC000 (decodeX vm.opcode) (decodeNN vm.opcode) r) := by
  unfold VM.parseOpcode
  simp [hf]

/-- `parseOpcode` reduced on the opcode family `0xD000`. -/
theorem parseOpcode_eq_fam13 (vm : VM) (r : Nat)
    (hf : Nat.land vm.opcode 0xF000 = 0xD000) :
    vm.parseOpcode r = vm._0xD000 (decodeX vm.opcode) (decodeY vm.opcode) := by
  unfold VM.parseOpcode
  simp [hf]

/-- `parseOpcode` reduced on the opcode family `0xE000`. -/
theorem parseOpcode_eq_fam14 (vm : VM) (r : Nat)
    (hf : Nat.land vm.opcode 0xF000 = 0xE000) :
    vm.parseOpcode r = (if Nat.land vm.opcode 0x00FF = 0x009E then vm._0x009E (decodeX vm.opcode)
      else if Nat.land vm.opcode 0x00FF = 0x00A1 then vm._0x00A1 (decodeX vm.opcode)
      else some vm) := by
  unfold VM.parseOpcode
  simp [hf]

/-- `parseOpcode` reduced on the opcode family `0xF000`. -/
theorem parseOpcode_eq_fam15 (vm : VM) (r : Nat)
    (hf : Nat.land vm.opcode 0xF000 = 0xF000) :
    vm.parseOpcode r = (if Nat.land vm.opcode 0x00FF = 0x0007 then some (vm._0x0007_2 (decodeX vm.opcode))
      else if Nat.land vm.opcode 0x00FF = 0x000A then vm._0x000A (decodeX vm.opcode)
      else if Nat.land vm.opcode 0x00FF = 0x0015 then some (vm._0x0015 (decodeX vm.opcode))
      else if Nat.land vm.opcode 0x00FF = 0x0018 then some (vm._0x0018 (decodeX vm.opcode))
      else if Nat.land vm.opcode 0x00FF = 0x001E then some (vm._0x001E (decodeX vm.opcode))
      else if Nat.land vm.opcode 0x00FF = 0x0029 then some (vm._0x0029 (decodeX vm.opcode))
      else if Nat.land vm.opcode 0x00FF = 0x0033 then vm._0x0033 (decodeX vm.opcode)
      else if Nat.land vm.opcode 0x00FF = 0x0055 then vm._0x0055 (decodeX vm.opcode)
      else if Nat.land vm.opcode 0x00FF = 0x0065 then vm._0x0065 (decodeX vm.opcode)
      else some vm) := by
  unfold VM.parseOpcode
  simp [hf]

/-- `parseOpcode` on an opcode outside every dispatched family falls
through to the unknown-opcode case: the state is unchanged. -/
theorem parseOpcode_eq_unknown (vm : VM) (r : Nat)
    (hf0 : ¬ Nat.land vm.opcode 0xF000 = 0x0000)
    (hf1 : ¬ Nat.land vm.opcode 0xF000 = 0x1000)
    (hf2 : ¬ Nat.land vm.opcode 0xF000 = 0x2000)
    (hf3 : ¬ Nat.land vm.opcode 0xF000 = 0x3000)
    (hf4 : ¬ Nat.land vm.opcode 0xF000 = 0x4000)
    (hf5 : ¬ Nat.land vm.opcode 0xF000 = 0x5000)
    (hf6 : ¬ Nat.land vm.opcode 0xF000 = 0x6000)
    (hf7 : ¬ Nat.land vm.opcode 0xF000 = 0x7000)
    (hf8 : ¬ Nat.land vm.opcode 0xF000 = 0x8000)
    (hf9 : ¬ Nat.land vm.opcode 0xF000 = 0x9000)
    (hf10 : ¬ Nat.land vm.opcode 0xF000 = 0xA000)
    (hf11 : ¬ Nat.land vm.opcode 0xF000 = 0xB000)
    (hf12 : ¬ Nat.land vm.opcode 0xF000 = 0xC000)
    (hf13 : ¬ Nat.land vm.opcode 0xF000 = 0xD000)
    (hf14 : ¬ Nat.land vm.opcode 0xF000 = 0xE000)
    (hf15 : ¬ Nat.land vm.opcode 0xF000 = 0xF000) :
    vm.parseOpcode r = some vm := by
  unfold VM.parseOpcode
  simp [hf0, hf1, hf2, hf3, hf4, hf5, hf6, hf7, hf8, hf9,
    hf10, hf11, hf12, hf13, hf14, hf15]

set_option maxHeartbeats 3200000 in
/-- After a successful `parseOpcode`, the opcode under examination is
unchanged and `drawFlag` is raised exactly when the dispatched family was
`DXYN` (every other handler leaves it alone; an unknown opcode changes
nothing). -/
theorem parseOpcode_flags (vm vm2 : VM) (r : Nat)
    (h : vm.parseOpcode r = some vm2) :
    vm2.opcode = vm.opcode ∧
    vm2.drawFlag =
      (if Nat.land vm.opcode 0xF000 = 0xD000 then true else vm.drawFlag) := by
  by_cases hf0 : Nat.land vm.opcode 0xF000 = 0x0000
  · rw [parseOpcode_eq_fam0 vm r hf0] at h
    split_ifs at h
    · obtain rfl := (Option.some.inj h).symm
      exact ⟨rfl, by rw [if_neg (by omega)]; try rfl⟩
    · obtain ⟨ho, hd⟩ := flagsOpt_0x00EE vm vm2 h
      exact ⟨ho, by rw [if_neg (by omega)]; exact hd⟩
    · obtain rfl := (Option.some.inj h).symm
      exact ⟨rfl, by rw [if_neg (by omega)]; try rfl⟩
  by_cases hf1 : Nat.land vm.opcode 0xF000 = 0x1000
  · rw [parseOpcode_eq_fam1 vm r hf1] at h
    obtain rfl := (Option.some.inj h).symm
    exact ⟨rfl, by rw [if_neg (by omega)]; try rfl⟩
  by_cases hf2 : Nat.land vm.opcode 0xF000 = 0x2000
  · rw [parseOpcode_eq_fam2 vm r hf2] at h
    obtain ⟨ho, hd⟩ := flagsOpt_0x2000 vm vm2 _ h
    exact ⟨ho, by rw [if_neg (by omega)]; exact hd⟩
  by_cases hf3 : Nat.land vm.opcode 0xF000 = 0x3000
  · rw [parseOpcode_eq_fam3 vm r hf3] at h
    obtain rfl := (Option.some.inj h).symm
    rw [if_neg (by omega)]
    unfold VM._0x3000
    split_ifs <;> exact ⟨rfl, rfl⟩
  by_cases hf4 : Nat.land vm.opcode 0xF000 = 0x4000
  · rw [parseOpcode_eq_fam4 vm r hf4] at h
    obtain rfl := (Option.some.inj h).symm
    rw [if_neg (by omega)]
    unfold VM._0x4000
    split_ifs <;> exact ⟨rfl, rfl⟩
  by_cases hf5 : Nat.land vm.opcode 0xF000 = 0x5000
  · rw [parseOpcode_eq_fam5 vm r hf5] at h
    obtain rfl := (Option.some.inj h).symm
    rw [if_neg (by omega)]
    unfold VM._0x5000
    split_ifs <;> exact ⟨rfl, rfl⟩
  by_cases hf6 : Nat.land vm.opcode 0xF000 = 0x6000
  · rw [parseOpcode_eq_fam6 vm r hf6] at h
    obtain rfl := (Option.some.inj h).symm
    exact ⟨rfl, by rw [if_neg (by omega)]; try rfl⟩
  by_cases hf7 : Nat.land vm.opcode 0xF000 = 0x7000
  · rw [parseOpcode_eq_fam7 vm r hf7] at h
    obtain rfl := (Option.some.inj h).symm
    exact ⟨rfl, by rw [if_neg (by omega)]; try rfl⟩
  by_cases hf8 : Nat.land vm.opcode 0xF000 = 0x8000
  · rw [parseOpcode_eq_fam8 vm r hf8] at h
    split_ifs at h <;>
      (obtain rfl := (Option.some.inj h).symm
       exact ⟨rfl, by rw [if_neg (by omega)]; try rfl⟩)
  by_cases hf9 : Nat.land vm.opcode 0xF000 = 0x9000
  · rw [parseOpcode_eq_fam9 vm r hf9] at h
    obtain rfl := (Option.some.inj h).symm
    rw [if_neg (by omega)]
    unfold VM._0x9000
    split_ifs <;> exact ⟨rfl, rfl⟩
  by_cases hf10 : Nat.land vm.opcode 0xF000 = 0xA000
  · rw [parseOpcode_eq_fam10 vm r hf10] at h
    obtain rfl := (Option.some.inj h).symm
    exact ⟨rfl, by rw [if_neg (by omega)]; try rfl⟩
  by_cases hf11 : Nat.land vm.opcode 0xF000 = 0xB000
  · rw [parseOpcode_eq_fam11 vm r hf11] at h
    obtain rfl := (Option.some.inj h).symm
    exact ⟨rfl, by rw [if_neg (by omega)]; try rfl⟩
  by_cases hf12 : Nat.land vm.opcode 0xF000 = 0xC000
  · rw [parseOpcode_eq_fam12 vm r hf12] at h
    obtain rfl := (Option.some.inj h).symm
    exact ⟨rfl, by rw [if_neg (by omega)]; try rfl⟩
  by_cases hf13 : Nat.land vm.opcode 0xF000 = 0xD000
  · rw [parseOpcode_eq_fam13 vm r hf13] at h
    obtain ⟨ho, hd⟩ := flagsOpt_0xD000 vm vm2 _ _ h
    exact ⟨ho, by rw [if_pos hf13]; exact hd⟩
  by_cases hf14 : Nat.land vm.opcode 0xF000 = 0xE000
  · rw [parseOpcode_eq_fam14 vm r hf14] at h
    split_ifs at h
    · obtain ⟨ho, hd⟩ := flagsOpt_0x009E vm vm2 _ h
      exact ⟨ho, by rw [if_neg (by omega)]; exact hd⟩
    · obtain ⟨ho, hd⟩ := flagsOpt_0x00A1 vm vm2 _ h
      exact ⟨ho, by rw [if_neg (by omega)]; exact hd⟩
    · obtain rfl := (Option.some.inj h).symm
      exact ⟨rfl, by rw [if_neg (by omega)]; try rfl⟩
  by_cases hf15 : Nat.land vm.opcode 0xF000 = 0xF000
  · rw [parseOpcode_eq_fam15 vm r hf15] at h
    split_ifs at h
    · obtain rfl := (Option.some.inj h).symm
      exact ⟨rfl, by rw [if_neg (by omega)]; try rfl⟩
    · obtain ⟨ho, hd⟩ := flagsOpt_0x000A vm vm2 _ h
      exact ⟨ho, by rw [if_neg (by omega)]; exact hd⟩
    · obtain rfl := (Option.some.inj h).symm
      exact ⟨rfl, by rw [if_neg (by omega)]; try rfl⟩
    · obtain rfl := (Option.some.inj h).symm
      exact ⟨rfl, by rw [if_neg (by omega)]; try rfl⟩
    · obtain rfl := (Option.some.inj h).symm
      exact ⟨rfl, by rw [if_neg (by omega)]; try rfl⟩
    · obtain rfl := (Option.some.inj h).symm
      exact ⟨rfl, by rw [if_neg (by omega)]; try rfl⟩
    · obtain ⟨ho, hd⟩ := flagsOpt_0x0033 vm vm2 _ h
      exact ⟨ho, by rw [if_neg (by omega)]; exact hd⟩
    · obtain ⟨ho, hd⟩ := flagsOpt_0x0055 vm vm2 _ h
      exact ⟨ho, by rw [if_neg (by omega)]; exact hd⟩
    · obtain ⟨ho, hd⟩ := flagsOpt_0x0065 vm vm2 _ h
      exact ⟨ho, by rw [if_neg (by omega)]; exact hd⟩
    · obtain rfl := (Option.some.inj h).symm
      exact ⟨rfl, by rw [if_neg (by omega)]; try rfl⟩
  rw [parseOpcode_eq_unknown vm r hf0 hf1 hf2 hf3 hf4 hf5 hf6 hf7 hf8 hf9 hf10 hf11 hf12 hf13 hf14 hf15] at h
  obtain rfl := (Option.some.inj h).symm
  exact ⟨rfl, by rw [if_neg (by omega)]; try rfl⟩

/-- C8 (amended): after a successful full cycle the redraw flag is set if
and only if the executed instruction (the fetched opcode, recorded in the
`opcode` field) was draw-sprite `DXYN`. In particular clear-screen `00E0`
leaves the flag false — not set, as the claim states. -/
theorem C8_drawFlag (vm vm2 : VM) (r : Nat) (h : vm.emulateCycle r = some vm2) :
    vm2.drawFlag = true ↔ Nat.land vm2.opcode 0xF000 = 0xD000 := by
  unfold VM.emulateCycle at h
  split_ifs at h
  obtain ⟨ho, hf⟩ := parseOpcode_flags _ vm2 r h
  dsimp only at ho hf
  rw [hf, ho]
  split_ifs with hc
  · exact ⟨fun _ => hc, fun _ => rfl⟩
  · refine ⟨fun hft => ?_, fun hcc => absurd hcc hc⟩
    exact absurd hft (by simp)

/-- Projection of `drawFlag` out of the optional post-state of a cycle. -/
def flagAfter (vm : VM) (r : Nat) : Option Bool :=
  (vm.emulateCycle r).map VM.drawFlag

/-- State whose memory holds the word `0x00E0` (clear screen) at
PC = 0x200: memory[513] = 0xE0. -/
def vmC8 : VM := { vm0 with memory := upd vm0.memory 513 224 }

/-- The post-state of one cycle from `vmC8`: opcode 0x00E0 fetched,
screen cleared, `drawFlag` still false. -/
def vmC8r : VM :=
  { vmC8 with opcode := 224, drawFlag := false, gfx := fun _ => 0, pc := 514 }

/-- State whose memory holds the word `0xD011` (draw 1-row sprite at
(V0, V1)) at PC = 0x200. -/
def vmC8d : VM :=
  { vm0 with memory := upd (upd vm0.memory 512 208) 513 17 }

/-- The post-state of one cycle from `vmC8d`: opcode 0xD011 fetched, an
all-zero sprite row drawn (no pixel change, VF = 0), `drawFlag` raised. -/
def vmC8dr : VM :=
  { vmC8d with opcode := 53265, drawFlag := true, v := upd vmC8d.v 15 0
               pc := 514 }

/-- C8 (counterexample): the claim "executing 00E0 leaves the redraw-needed
flag set" fails: a full cycle that fetches and executes `0x00E0` from
`vmC8` ends with `drawFlag = false` (the cycle clears the flag and the
clear-screen handler never sets it). -/
theorem C8_clear_counterexample : flagAfter vmC8 0 = some false := rfl

/-- C8 (witness): the amended iff at a concrete `DXYN` cycle — the flag is
raised and the fetched opcode family is 0xD000. -/
theorem C8_drawFlag_witness :
    vmC8dr.drawFlag = true ↔ Nat.land vmC8dr.opcode 0xF000 = 0xD000 :=
  C8_drawFlag vmC8d vmC8dr 0 rfl

end Chippy
